import Mathlib

/-!
Shallow embedding of the Adafruit FRAM SPI driver
(`Adafruit_FRAM_SPI.cpp` / `Adafruit_FRAM_SPI.h`).

Machine integers are modelled as `Nat` with explicit `% 2^w` at the points
where the C code stores into a fixed-width integer (`uint8_t`, `uint16_t`).
The SPI bus transport is an external collaborator: its responses are passed
in as parameters (`Option` for fallible transfers), and the bus activity an
operation performs is returned as an explicit list of `BusEvent`s.
-/

/-- Opcode constants from `Adafruit_FRAM_SPI.h` (`opcodes_e`). -/
def OPCODE_WREN : Nat := 0b0110

/-- Reset Write Enable Latch. -/
def OPCODE_WRDI : Nat := 0b0100

/-- Read Status Register. -/
def OPCODE_RDSR : Nat := 0b0101

/-- Write Status Register. -/
def OPCODE_WRSR : Nat := 0b0001

/-- Read Memory. -/
def OPCODE_READ : Nat := 0b0011

/-- Write Memory. -/
def OPCODE_WRITE : Nat := 0b0010

/-- Read Device ID. -/
def OPCODE_RDID : Nat := 0b10011111

/-- Sleep Mode. -/
def OPCODE_SLEEP : Nat := 0b10111001

/-- One entry of the `_supported_devices` table (anonymous struct in the
C source): manufacturer ID (`uint8_t`), product ID (`uint16_t`), size in
bytes (`uint32_t`), sleep-mode support flag. -/
structure DeviceDescriptor where
  manufID : Nat
  prodID : Nat
  size : Nat
  support_sleep : Bool
deriving DecidableEq, Repr

/-- The static `_supported_devices[]` table, entry for entry. -/
def _supported_devices : List DeviceDescriptor :=
  [ ⟨0x04, 0x0101, 2 * 1024, false⟩,  -- MB85RS16
    ⟨0x04, 0x0302, 8 * 1024, false⟩,  -- MB85RS64V
    ⟨0x04, 0x2303, 8 * 1024, true⟩,   -- MB85RS64T
    ⟨0x04, 0x2503, 32 * 1024, true⟩,  -- MB85RS256TY
    ⟨0x04, 0x2703, 128 * 1024, true⟩, -- MB85RS1MT
    ⟨0x04, 0x4803, 256 * 1024, true⟩, -- MB85RS2MTA
    ⟨0x04, 0x2803, 256 * 1024, true⟩, -- MB85RS2MT
    ⟨0x04, 0x4903, 512 * 1024, true⟩, -- MB85RS4MT
    ⟨0x04, 0x490B, 512 * 1024, true⟩, -- MB85RS4MTY
    ⟨0x7F, 0x7F7F, 32 * 1024, false⟩, -- FM25V02
    ⟨0xAE, 0x8305, 8 * 1024, false⟩ ] -- MR45V064B

/-- Recursion of `get_supported_idx`: scan `devs` starting at index `i`,
return the first index whose entry matches both IDs, else `-1`. -/
def get_supported_idx_from (devs : List DeviceDescriptor)
    (manufID prodID : Nat) (i : Nat) : Int :=
  match devs with
  | [] => -1
  | d :: rest =>
    if manufID = d.manufID ∧ prodID = d.prodID then (i : Int)
    else get_supported_idx_from rest manufID prodID (i + 1)

/-- `get_supported_idx(manufID, prodID)`: linear scan of
`_supported_devices`, returning the device index or `-1` if unsupported. -/
def get_supported_idx (manufID prodID : Nat) : Int :=
  get_supported_idx_from _supported_devices manufID prodID 0

/-- `_supported_devices[_dev_idx]` for an `int` index. Indexing with an
invalid index is undefined behaviour in C; the default descriptor returned
here is only ever hit outside the reachable states of the driver. -/
def deviceAt (i : Int) : DeviceDescriptor :=
  (_supported_devices.get? i.toNat).getD ⟨0, 0, 0, false⟩

/-- The decode step of `getDeviceID` applied to the four response bytes
`a[0..3]` (each a `uint8_t`, hence `< 256` in all uses). The `% 65536`
models the store into the `uint16_t *productID`. -/
def decodeDeviceID (a0 a1 a2 a3 : Nat) : Nat × Nat :=
  if a1 = 0x7f then (a0, (a2 * 256 + a3) % 65536)
  else (a0, (a1 * 256 + a2) % 65536)

/-- `getDeviceID(uint8_t *manufacturerID, uint16_t *productID)`.
`busResp` is the outcome of `spi_dev->write_then_read(&cmd, 1, a, 4)`:
`none` when the transfer fails, `some` raw response bytes otherwise (the
`% 256` models their storage into the `uint8_t a[4]` array). The
pointed-to output values are threaded in and returned: on failure they
come back unchanged. Result is `(returnValue, *manufacturerID, *productID)`. -/
def getDeviceID (busResp : Option (Nat × Nat × Nat × Nat))
    (manufacturerID productID : Nat) : Bool × Nat × Nat :=
  match busResp with
  | none => (false, manufacturerID, productID)
  | some (r0, r1, r2, r3) =>
    let p := decodeDeviceID (r0 % 256) (r1 % 256) (r2 % 256) (r3 % 256)
    (true, p.1, p.2)

/-- The per-instance mutable state of `Adafruit_FRAM_SPI`:
`_nAddressSizeBytes` (`uint8_t`) and `_dev_idx` (`int`). -/
structure FRAMState where
  nAddressSizeBytes : Nat
  dev_idx : Int
deriving DecidableEq, Repr

namespace Adafruit_FRAM_SPI

/-- `Adafruit_FRAM_SPI::init()`: the state of a freshly constructed
driver (`_nAddressSizeBytes = 0`, `_dev_idx = -1`). -/
def init : FRAMState := ⟨0, -1⟩

/-- `Adafruit_FRAM_SPI::setAddressSize(uint8_t nAddressSize)`; the
`% 256` models the `uint8_t` parameter. -/
def setAddressSize (nAddressSize : Nat) (s : FRAMState) : FRAMState :=
  { s with nAddressSizeBytes := nAddressSize % 256 }

/-- `Adafruit_FRAM_SPI::begin(uint8_t nAddressSizeBytes)`.
`spiBeginOk` is the outcome of `spi_dev->begin()`; `busResp` the outcome
of the RDID transfer inside `getDeviceID`; `junkManuf`/`junkProd` stand
for the indeterminate values of the uninitialized locals `manufID`/`prodID`
(read when `getDeviceID` fails, since its return value is discarded).
Returns `(returnValue, newState)`. -/
def begin (nAddressSizeBytes : Nat) (s : FRAMState) (spiBeginOk : Bool)
    (busResp : Option (Nat × Nat × Nat × Nat))
    (junkManuf junkProd : Nat) : Bool × FRAMState :=
  let _ := nAddressSizeBytes  -- (void)nAddressSizeBytes; not used anymore
  if spiBeginOk = false then (false, s)
  else
    let r := getDeviceID busResp junkManuf junkProd
    let dev_idx := get_supported_idx r.2.1 r.2.2
    if dev_idx = -1 then (false, { s with dev_idx := dev_idx })
    else
      (true,
        { s with
          dev_idx := dev_idx,
          nAddressSizeBytes :=
            if (deviceAt dev_idx).size > 64 * 1024 then 3 else 2 })

/-- The address-byte part of the command frames built by `write8`,
`write`, `read8` and `read`: after the opcode, the code emits
`(uint8_t)(addr >> 24)` when `_nAddressSizeBytes > 3`,
`(uint8_t)(addr >> 16)` when `_nAddressSizeBytes > 2`, and always
`(uint8_t)(addr >> 8)` and `(uint8_t)(addr & 0xFF)`. -/
def framAddrBytes (nAddressSizeBytes addr : Nat) : List Nat :=
  (if nAddressSizeBytes > 3 then [(addr >>> 24) % 256] else []) ++
  (if nAddressSizeBytes > 2 then [(addr >>> 16) % 256] else []) ++
  [(addr >>> 8) % 256, addr % 256]

/-- The command frame sent by `Adafruit_FRAM_SPI::read` (and the
`write_then_read` prefix of `read8`): `OPCODE_READ` then the address
bytes. -/
def read_frame (nAddressSizeBytes addr : Nat) : List Nat :=
  OPCODE_READ :: framAddrBytes nAddressSizeBytes addr

/-- The frame sent by `Adafruit_FRAM_SPI::write8`: `OPCODE_WRITE`, the
address bytes, then the value (a `uint8_t`). -/
def write8_frame (nAddressSizeBytes addr value : Nat) : List Nat :=
  OPCODE_WRITE :: (framAddrBytes nAddressSizeBytes addr ++ [value % 256])

/-- Observable bus activity of an operation, in order: raw writes,
select-line assertion/deassertion (the `beginTransactionWithAssertingCS` /
`endTransactionWithDeassertingCS` calls), and inserted delays. -/
inductive BusEvent where
  | write (bytes : List Nat)
  | assertCS
  | deassertCS
  | delayMicroseconds (n : Nat)
deriving DecidableEq, Repr

/-- Total number of microseconds of delay in a bus-event trace. -/
def totalDelay : List BusEvent → Nat
  | [] => 0
  | BusEvent.delayMicroseconds n :: rest => n + totalDelay rest
  | _ :: rest => totalDelay rest

end Adafruit_FRAM_SPI

namespace Adafruit_FRAM_SPI

/-- `Adafruit_FRAM_SPI::enterSleep()`. Guarded by
`_dev_idx == -1 || !_supported_devices[_dev_idx].support_sleep`; on
failure returns `false` with no bus activity, else writes the SLEEP
opcode (`busWriteOk` is the outcome of that `spi_dev->write`).
Returns `(returnValue, bus events)`. -/
def enterSleep (s : FRAMState) (busWriteOk : Bool) : Bool × List BusEvent :=
  if s.dev_idx = -1 ∨ (deviceAt s.dev_idx).support_sleep = false then
    (false, [])
  else
    (busWriteOk, [BusEvent.write [OPCODE_SLEEP]])

/-- `Adafruit_FRAM_SPI::exitSleep()`. Same guard as `enterSleep`; on
success: assert CS, delay 300 µs, deassert CS, delay 100 µs, and delay a
further 50 µs when the matched entry has `manufID == 0x04 &&
prodID == 0x0B`. Returns `(returnValue, bus events)`. -/
def exitSleep (s : FRAMState) : Bool × List BusEvent :=
  if s.dev_idx = -1 ∨ (deviceAt s.dev_idx).support_sleep = false then
    (false, [])
  else
    let base := [BusEvent.assertCS, BusEvent.delayMicroseconds 300,
                 BusEvent.deassertCS, BusEvent.delayMicroseconds 100]
    if (deviceAt s.dev_idx).manufID = 0x04 ∧ (deviceAt s.dev_idx).prodID = 0x0B
    then (true, base ++ [BusEvent.delayMicroseconds 50])
    else (true, base)

end Adafruit_FRAM_SPI

/-- Modelled from the spec: the address part of `encodeFrame` as §4.3 words
it — "big-endian address bytes, truncated to `addressWidthBytes`".
`spec_bigEndianBytes n v` is the `n`-byte big-endian rendering of `v`.
This is the spec-side definition used only to compare against the
source-derived `framAddrBytes`. -/
def spec_bigEndianBytes : Nat → Nat → List Nat
  | 0, _ => []
  | n + 1, v => (v >>> (8 * n)) % 256 :: spec_bigEndianBytes n v

open Adafruit_FRAM_SPI

/-! ## Helper lemmas -/

/-- `x <<< 8 ||| y` coincides with `x * 256 + y` when `y` is a byte. -/
theorem byte_shiftLeft_or (x y : Nat) (hy : y < 256) :
    x <<< 8 ||| y = x * 256 + y := by
  rw [Nat.shiftLeft_eq]
  have h := Nat.mul_add_lt_is_or (show y < 2 ^ 8 by omega) x
  calc x * 2 ^ 8 ||| y = 2 ^ 8 * x ||| y := by rw [Nat.mul_comm]
    _ = 2 ^ 8 * x + y := h.symm
    _ = x * 256 + y := by omega

/-- A key absent from every entry of a device list makes the scan return
`-1`, whatever the start index. -/
theorem get_supported_idx_from_no_match (devs : List DeviceDescriptor)
    (m p : Nat) (h : ∀ d ∈ devs, ¬(m = d.manufID ∧ p = d.prodID)) :
    ∀ i, get_supported_idx_from devs m p i = -1 := by
  induction devs with
  | nil => intro i; rfl
  | cons d rest ih =>
    intro i
    simp only [get_supported_idx_from]
    rw [if_neg (h d (by simp))]
    exact ih (fun e he => h e (by simp [he])) (i + 1)

/-! ## Claim theorems -/

/-- C1: `getDeviceID` decodes a 4-byte RDID response `a[0..3]` by the
continuation-code rule: if `a[1] = 0x7F` then `(a[0], a[2] <<< 8 ||| a[3])`,
otherwise `(a[0], a[1] <<< 8 ||| a[2])`; in particular
`[0x04, 0x7F, 0x03, 0x02] ↦ (0x04, 0x0302)` and
`[0xAE, 0x83, 0x05, 0x00] ↦ (0xAE, 0x8305)`. -/
theorem getDeviceID_decode_rule (a0 a1 a2 a3 : Nat)
    (h0 : a0 < 256) (h1 : a1 < 256) (h2 : a2 < 256) (h3 : a3 < 256) :
    (getDeviceID (some (a0, a1, a2, a3)) 0 0).2 = decodeDeviceID a0 a1 a2 a3 ∧
    (a1 = 0x7F → decodeDeviceID a0 a1 a2 a3 = (a0, a2 <<< 8 ||| a3)) ∧
    (a1 ≠ 0x7F → decodeDeviceID a0 a1 a2 a3 = (a0, a1 <<< 8 ||| a2)) ∧
    decodeDeviceID 0x04 0x7F 0x03 0x02 = (0x04, 0x0302) ∧
    decodeDeviceID 0xAE 0x83 0x05 0x00 = (0xAE, 0x8305) := by
  refine ⟨?_, ?_, ?_, by decide, by decide⟩
  · simp [getDeviceID, Nat.mod_eq_of_lt h0, Nat.mod_eq_of_lt h1,
      Nat.mod_eq_of_lt h2, Nat.mod_eq_of_lt h3]
  · intro h
    rw [byte_shiftLeft_or a2 a3 h3]
    simp only [decodeDeviceID, if_pos h, Prod.mk.injEq]
    exact ⟨trivial, by omega⟩
  · intro h
    rw [byte_shiftLeft_or a1 a2 h2]
    simp only [decodeDeviceID, if_neg h, Prod.mk.injEq]
    exact ⟨trivial, by omega⟩

/-- Witness for C1 at the concrete responses named by the claim. -/
theorem getDeviceID_decode_rule_witness :
    decodeDeviceID 0x04 0x7F 0x03 0x02 = (0x04, 0x0302) ∧
    decodeDeviceID 0xAE 0x83 0x05 0x00 = (0xAE, 0x8305) :=
  ⟨(getDeviceID_decode_rule 0x04 0x7F 0x03 0x02 (by decide) (by decide)
      (by decide) (by decide)).2.2.2.1,
   (getDeviceID_decode_rule 0xAE 0x83 0x05 0x00 (by decide) (by decide)
      (by decide) (by decide)).2.2.2.2⟩

/-- C6: the `(manufID, prodID)` keys of `_supported_devices` are pairwise
distinct; looking up the key of the entry at index `i` returns exactly `i`
(the first exact match of the linear scan is the entry itself); and any
key matching no entry yields `-1`. -/
theorem device_table_lookup_exact (m p : Nat)
    (habs : ∀ d ∈ _supported_devices, ¬(m = d.manufID ∧ p = d.prodID)) :
    List.Pairwise (fun d e => ¬(d.manufID = e.manufID ∧ d.prodID = e.prodID))
      _supported_devices ∧
    (∀ i : Fin _supported_devices.length,
      get_supported_idx (_supported_devices.get i).manufID
        (_supported_devices.get i).prodID = ((i : Nat) : Int)) ∧
    get_supported_idx m p = -1 := by
  refine ⟨by decide, by decide, ?_⟩
  exact get_supported_idx_from_no_match _supported_devices m p habs 0

/-- Witness for C6: the key `(0x05, 0x0101)` matches no table entry and
the lookup returns `-1`. -/
theorem device_table_lookup_exact_witness :
    get_supported_idx 0x05 0x0101 = -1 :=
  (device_table_lookup_exact 0x05 0x0101 (by decide)).2.2

/-- C9: when the RDID bus transfer fails, `getDeviceID` returns `false`
with both output parameters unchanged; the outputs are written (with the
decoded values) only when the 4-byte transfer succeeds. -/
theorem getDeviceID_failure_leaves_outputs (m p r0 r1 r2 r3 : Nat) :
    getDeviceID none m p = (false, m, p) ∧
    getDeviceID (some (r0, r1, r2, r3)) m p =
      (true, (decodeDeviceID (r0 % 256) (r1 % 256) (r2 % 256) (r3 % 256)).1,
        (decodeDeviceID (r0 % 256) (r1 % 256) (r2 % 256) (r3 % 256)).2) :=
  ⟨rfl, rfl⟩

/-- C10: `begin` ignores its `nAddressSizeBytes` argument entirely — for
any two argument values, the result and the resulting driver state agree
on every starting state and every bus response. -/
theorem begin_ignores_argument (x y : Nat) (s : FRAMState) (ok : Bool)
    (resp : Option (Nat × Nat × Nat × Nat)) (j1 j2 : Nat) :
    begin x s ok resp j1 j2 = begin y s ok resp j1 j2 := rfl

/-- Structure of a successful `begin`: the looked-up index is not `-1`,
and the result state records that index together with the width chosen
from the size of the matched entry. -/
theorem begin_success_state (arg j1 j2 : Nat) (s : FRAMState) (ok : Bool)
    (resp : Option (Nat × Nat × Nat × Nat))
    (h : (begin arg s ok resp j1 j2).1 = true) :
    get_supported_idx (getDeviceID resp j1 j2).2.1 (getDeviceID resp j1 j2).2.2 ≠ -1 ∧
    (begin arg s ok resp j1 j2).2 =
      { s with
        dev_idx :=
          get_supported_idx (getDeviceID resp j1 j2).2.1 (getDeviceID resp j1 j2).2.2,
        nAddressSizeBytes :=
          if (deviceAt (get_supported_idx (getDeviceID resp j1 j2).2.1
              (getDeviceID resp j1 j2).2.2)).size > 64 * 1024
          then 3 else 2 } := by
  by_cases hok : ok = false
  · simp [begin, hok] at h
  · by_cases hidx :
      get_supported_idx (getDeviceID resp j1 j2).2.1 (getDeviceID resp j1 j2).2.2 = -1
    · simp [begin, hok, hidx] at h
    · exact ⟨hidx, by simp [begin, hok, hidx]⟩

/-- C3: whenever `begin` succeeds (a device descriptor was matched), the
selected address width is a function of the capacity of the matched entry:
size ≤ 65536 gives width 2, size > 65536 gives width 3, and no other
width is ever selected by auto-configuration. -/
theorem begin_width_from_capacity (arg j1 j2 : Nat) (s : FRAMState) (ok : Bool)
    (resp : Option (Nat × Nat × Nat × Nat))
    (h : (begin arg s ok resp j1 j2).1 = true) :
    ((deviceAt (begin arg s ok resp j1 j2).2.dev_idx).size ≤ 65536 →
      (begin arg s ok resp j1 j2).2.nAddressSizeBytes = 2) ∧
    (65536 < (deviceAt (begin arg s ok resp j1 j2).2.dev_idx).size →
      (begin arg s ok resp j1 j2).2.nAddressSizeBytes = 3) ∧
    ((begin arg s ok resp j1 j2).2.nAddressSizeBytes = 2 ∨
      (begin arg s ok resp j1 j2).2.nAddressSizeBytes = 3) := by
  obtain ⟨-, hs⟩ := begin_success_state arg j1 j2 s ok resp h
  rw [hs]
  by_cases hsz :
      (deviceAt (get_supported_idx (getDeviceID resp j1 j2).2.1
        (getDeviceID resp j1 j2).2.2)).size > 64 * 1024
  · simp only [if_pos hsz]
    exact ⟨fun hle => absurd hsz (by omega), fun _ => trivial, Or.inr trivial⟩
  · simp only [if_neg hsz]
    exact ⟨fun _ => trivial, fun hlt => absurd hlt (by omega), Or.inl trivial⟩

/-- Witness for C3: a bus response identifying the MB85RS64V (8 KiB ≤
64 KiB) makes `begin` succeed and select width 2. -/
theorem begin_width_from_capacity_witness :
    (begin 2 init true (some (0x04, 0x03, 0x02, 0x00)) 0 0).2.nAddressSizeBytes = 2 :=
  (begin_width_from_capacity 2 0 0 init true (some (0x04, 0x03, 0x02, 0x00))
    (by decide)).1 (by decide)

/-- C7: when the decoded device ID matches no table entry, `begin` from a
freshly initialized driver returns `false`, leaves `_nAddressSizeBytes`
at its uninitialized value `0`, and leaves `_dev_idx = -1` (no matched
device). -/
theorem begin_unsupported_device (arg j1 j2 r0 r1 r2 r3 : Nat)
    (habs : get_supported_idx
        (decodeDeviceID (r0 % 256) (r1 % 256) (r2 % 256) (r3 % 256)).1
        (decodeDeviceID (r0 % 256) (r1 % 256) (r2 % 256) (r3 % 256)).2 = -1) :
    begin arg init true (some (r0, r1, r2, r3)) j1 j2 =
      (false, { nAddressSizeBytes := 0, dev_idx := -1 }) := by
  have hdec : (getDeviceID (some (r0, r1, r2, r3)) j1 j2).2 =
      decodeDeviceID (r0 % 256) (r1 % 256) (r2 % 256) (r3 % 256) := rfl
  simp [begin, hdec, habs, init]

/-- Witness for C7: the all-zero response decodes to key `(0, 0)`, which
is absent from the table. -/
theorem begin_unsupported_device_witness :
    begin 2 init true (some (0, 0, 0, 0)) 0 0 =
      (false, { nAddressSizeBytes := 0, dev_idx := -1 }) :=
  begin_unsupported_device 2 0 0 0 0 0 0 (by decide)

/-- C4: the command frames of the read and write paths are the opcode
followed by the big-endian address truncated to the configured width —
width 2 emits exactly the low 16 bits of the address, width 3 the low 24
bits, higher bits being silently dropped; with the concrete
instances for the READ opcode. -/
theorem frame_encoding_big_endian (addr value : Nat) :
    framAddrBytes 2 addr = spec_bigEndianBytes 2 (addr % 2 ^ 16) ∧
    framAddrBytes 3 addr = spec_bigEndianBytes 3 (addr % 2 ^ 24) ∧
    read_frame 2 addr = OPCODE_READ :: spec_bigEndianBytes 2 (addr % 2 ^ 16) ∧
    read_frame 3 addr = OPCODE_READ :: spec_bigEndianBytes 3 (addr % 2 ^ 24) ∧
    write8_frame 2 addr value =
      OPCODE_WRITE :: (spec_bigEndianBytes 2 (addr % 2 ^ 16) ++ [value % 256]) ∧
    write8_frame 3 addr value =
      OPCODE_WRITE :: (spec_bigEndianBytes 3 (addr % 2 ^ 24) ++ [value % 256]) ∧
    read_frame 2 0x1234 = [0b0011, 0x12, 0x34] ∧
    read_frame 3 0x123456 = [0b0011, 0x12, 0x34, 0x56] := by
  have h2 : framAddrBytes 2 addr = spec_bigEndianBytes 2 (addr % 2 ^ 16) := by
    simp only [framAddrBytes, spec_bigEndianBytes, Nat.shiftRight_eq_div_pow]
    norm_num
    omega
  have h3 : framAddrBytes 3 addr = spec_bigEndianBytes 3 (addr % 2 ^ 24) := by
    simp only [framAddrBytes, spec_bigEndianBytes, Nat.shiftRight_eq_div_pow]
    norm_num
    omega
  refine ⟨h2, h3, ?_, ?_, ?_, ?_, by decide, by decide⟩
  · rw [read_frame, h2]
  · rw [read_frame, h3]
  · rw [write8_frame, h2]
  · rw [write8_frame, h3]

/-- C5: with no matched device (`_dev_idx = -1`) or a matched descriptor
without sleep support, both `enterSleep` and `exitSleep` return `false`
and perform zero bus activity: no write, no select-line assertion, and no
delay. -/
theorem sleep_unsupported_no_bus_activity (s : FRAMState) (busWriteOk : Bool)
    (h : s.dev_idx = -1 ∨ (deviceAt s.dev_idx).support_sleep = false) :
    enterSleep s busWriteOk = (false, []) ∧
    exitSleep s = (false, []) ∧
    totalDelay (enterSleep s busWriteOk).2 = 0 ∧
    totalDelay (exitSleep s).2 = 0 := by
  have he : enterSleep s busWriteOk = (false, []) := by
    rw [enterSleep, if_pos h]
  have hx : exitSleep s = (false, []) := by
    rw [exitSleep, if_pos h]
  exact ⟨he, hx, by rw [he]; rfl, by rw [hx]; rfl⟩

/-- Witness for C5: the MB85RS16 (index 0) has `support_sleep = false`;
both transitions fail with an empty bus trace. -/
theorem sleep_unsupported_no_bus_activity_witness :
    enterSleep ⟨2, 0⟩ true = (false, []) ∧ exitSleep ⟨2, 0⟩ = (false, []) :=
  have h := sleep_unsupported_no_bus_activity ⟨2, 0⟩ true (Or.inr (by decide))
  ⟨h.1, h.2.1⟩

/-- C2 (code bug): waking the matched MB85RS4MTY (table index 8, manufID
0x04, prodID 0x490B, sleep-capable) inserts a total delay of exactly
400 µs, not the ≥ 450 µs the claim (and the comment in the source)
require: the extra-50 µs branch compares the product ID of the table entry
with 0x0B, which no entry — 0x490B included — ever equals. -/
theorem exitSleep_MB85RS4MTY_delay_400 :
    get_supported_idx 0x04 0x490B = 8 ∧
    (deviceAt 8).support_sleep = true ∧
    exitSleep ⟨3, 8⟩ =
      (true, [BusEvent.assertCS, BusEvent.delayMicroseconds 300,
              BusEvent.deassertCS, BusEvent.delayMicroseconds 100]) ∧
    totalDelay (exitSleep ⟨3, 8⟩).2 = 400 ∧
    ¬ 450 ≤ totalDelay (exitSleep ⟨3, 8⟩).2 := by decide

/-- C8 counterexample: after a successful `begin` (width 2 for the
MB85RS64V), the public `setAddressSize(4)` sets the width to 4, outside
{2, 3} — the manual override does not preserve the claimed invariant. -/
theorem setAddressSize_breaks_width_invariant :
    (begin 2 init true (some (0x04, 0x03, 0x02, 0x00)) 0 0).1 = true ∧
    (begin 2 init true (some (0x04, 0x03, 0x02, 0x00)) 0 0).2.nAddressSizeBytes = 2 ∧
    (setAddressSize 4
      (begin 2 init true (some (0x04, 0x03, 0x02, 0x00)) 0 0).2).nAddressSizeBytes = 4 := by
  decide

/-- C8 amended: after every successful `begin` the width is 2 or 3, and
`setAddressSize` — which stores its byte argument unconditionally —
preserves the invariant exactly when called with 2 or 3. -/
theorem address_width_invariant_amended (arg j1 j2 n : Nat) (s t : FRAMState)
    (ok : Bool) (resp : Option (Nat × Nat × Nat × Nat))
    (hsucc : (begin arg s ok resp j1 j2).1 = true) (hn : n = 2 ∨ n = 3) :
    ((begin arg s ok resp j1 j2).2.nAddressSizeBytes = 2 ∨
      (begin arg s ok resp j1 j2).2.nAddressSizeBytes = 3) ∧
    ((setAddressSize n t).nAddressSizeBytes = 2 ∨
      (setAddressSize n t).nAddressSizeBytes = 3) ∧
    (setAddressSize n t).nAddressSizeBytes = n % 256 := by
  refine ⟨?_, ?_, rfl⟩
  · obtain ⟨-, hs⟩ := begin_success_state arg j1 j2 s ok resp hsucc
    rw [hs]
    by_cases hsz :
        (deviceAt (get_supported_idx (getDeviceID resp j1 j2).2.1
          (getDeviceID resp j1 j2).2.2)).size > 64 * 1024
    · simp [if_pos hsz]
    · simp [if_neg hsz]
  · rcases hn with h | h <;> simp [setAddressSize, h]

/-- Witness for the amended C8 at a successful concrete `begin` and a
concrete `setAddressSize 3`. -/
theorem address_width_invariant_amended_witness :
    ((begin 2 init true (some (0x04, 0x03, 0x02, 0x00)) 0 0).2.nAddressSizeBytes = 2 ∨
      (begin 2 init true (some (0x04, 0x03, 0x02, 0x00)) 0 0).2.nAddressSizeBytes = 3) ∧
    ((setAddressSize 3 init).nAddressSizeBytes = 2 ∨
      (setAddressSize 3 init).nAddressSizeBytes = 3) :=
  have h := address_width_invariant_amended 2 0 0 3 init init true
    (some (0x04, 0x03, 0x02, 0x00)) (by decide) (Or.inr rfl)
  ⟨h.1, h.2.1⟩
